import Mathlib

/-!
Shallow embedding of the dither-creator application core (polygon-capture
interaction state machine and SVG pattern/export generator) together with
proofs of the specification claims.

Sources embedded (current versions of the files, i.e. the variants with
pattern offsets, 17 segment types and the smart-scaling pattern generator):
- src/src/types/index.ts            (data model)
- src/src/components/SegmentationCanvas.tsx  (polygon capture)
- src/src/components/ExportControls.tsx      (SVG export generator)
- src/src/App.tsx                   (segment collection update)

Conventions of the embedding:
- JavaScript numbers are modeled as exact rationals (ℚ); none of the claims
  depends on floating-point rounding.
- JavaScript falsiness of optional string fields (undefined or the empty
  string) is modeled by jsTruthy / jsOrDefault.
- Asynchronous canvas mask decoding (generatePathFromMask) is modeled as an
  explicit oracle parameter decodeMask : String → String so that claims
  about independence from it are expressible.
- Numeric-to-text rendering of a JS number is abstracted by numStr (the
  ToString instance of ℚ); the claims depend only on the structure of the
  generated text around the rendered numbers.
-/

namespace DitherCreator

/-- Kind tag of a captured click point, from the ClickPoint.type field of
src/src/types/index.ts (the literal union of include and exclude). -/
inductive ClickKind where
  | includePt : ClickKind
  | excludePt : ClickKind
deriving DecidableEq, Repr

/-- ClickPoint of src/src/types/index.ts: a 2D coordinate in canvas pixel
space plus the kind tag. -/
structure ClickPoint where
  x : ℚ
  y : ℚ
  type : ClickKind
deriving DecidableEq, Repr

/-- Pattern offset object of ImageSegment.patternOffset. -/
structure Offset where
  x : ℚ
  y : ℚ
deriving DecidableEq, Repr

/-- ImageSegment of src/src/types/index.ts (current version): identity,
display name, mask data URL, optional stored SVG path, optional pattern id,
optional pattern offset. -/
structure ImageSegment where
  id : String
  name : String
  mask : String
  svgPath : Option String := none
  ditherPattern : Option String := none
  patternOffset : Option Offset := none
deriving DecidableEq, Repr

/-- Image dimensions object passed around as imageDimensions. -/
structure Dims where
  width : ℚ
  height : ℚ
deriving DecidableEq, Repr

/-- JavaScript truthiness of an optional string field: undefined and the
empty string are falsy, every other string is truthy. -/
def jsTruthy (o : Option String) : Bool :=
  match o with
  | none => false
  | some s => !s.isEmpty

/-- JavaScript expression o || d for an optional string o: the stored
string when truthy, otherwise the default d. -/
def jsOrDefault (o : Option String) (d : String) : String :=
  match o with
  | none => d
  | some s => if s.isEmpty then d else s

/-- JavaScript expression o || zero for an optional offset (an object is
always truthy when present). -/
def jsOrZero (o : Option Offset) : Offset :=
  match o with
  | none => ⟨0, 0⟩
  | some v => v

/-- Rendering of a JS number into the generated SVG text, abstracted by the
exact rational ToString instance. -/
def numStr (q : ℚ) : String := toString q

/-- Concatenation of a list of strings, as the string accumulation of the
source loops produces it. -/
def concatAll : List String → String
  | [] => ""
  | s :: rest => s ++ concatAll rest

/-- JavaScript Array.prototype.join with separator sep. -/
def joinSep (sep : String) : List String → String
  | [] => ""
  | [s] => s
  | s :: rest => s ++ sep ++ joinSep sep rest

/-- Decides whether pat occurs at the head of s (character lists). -/
def headMatches : List Char → List Char → Bool
  | [], _ => true
  | _ :: _, [] => false
  | c :: cs, d :: ds => c = d && headMatches cs ds

/-- Number of positions of s at which the character list pat occurs. -/
def occurrencesAux (pat : List Char) : List Char → Nat
  | [] => 0
  | c :: rest => (if headMatches pat (c :: rest) then 1 else 0) + occurrencesAux pat rest

/-- Number of occurrences of the nonempty string pat inside s. -/
def countSubstr (pat s : String) : Nat := occurrencesAux pat.data s.data

/-- Substring containment as an explicit decomposition. -/
def containsSub (pat s : String) : Prop := ∃ a b, s = a ++ pat ++ b

/-! ## Export generator (src/src/components/ExportControls.tsx, current
version with pattern offsets) -/

/-- Fixed taxonomy color lookup getSegmentColor of ExportControls.tsx:
seven known segment ids, defaulting to the gray #888. -/
def getSegmentColor (segmentId : String) : String :=
  if segmentId = "hair" then "#ff6b6b"
  else if segmentId = "face" then "#4ecdc4"
  else if segmentId = "body" then "#45b7d1"
  else if segmentId = "arms" then "#96ceb4"
  else if segmentId = "legs" then "#feca57"
  else if segmentId = "accessories" then "#ff9ff3"
  else if segmentId = "background" then "#a4b0be"
  else "#888"

/-- JavaScript Math.round: round half toward positive infinity. -/
def jsRound (q : ℚ) : ℤ := ⌊q + 1/2⌋

/-- Dot-pattern tile side length of generatePatternDef (the dots case):
Math.max(12, Math.min(48, Math.min(width, height) / 15)). -/
def dotPatternSize (dims : Dims) : ℚ :=
  max 12 (min 48 (min dims.width dims.height / 15))

/-- Image-backed tile side length of generatePatternDef:
Math.round(128 * Math.min(max(width, height) / 400, 3)). -/
def imagePatternSize (dims : Dims) : ℤ :=
  jsRound (128 * min (max dims.width dims.height / 400) 3)

/-- Tile definition emitted for one of the three image-backed patterns
(dithered_marble_1, dithered_marble_2, dithered_nest). -/
def imageTileDef (patternId href : String) (size : ℤ) (offsetX offsetY : ℚ) : String :=
  "\n        <pattern id=\"" ++ patternId
    ++ "\" patternUnits=\"userSpaceOnUse\" width=\"" ++ toString size
    ++ "\" height=\"" ++ toString size
    ++ "\" \n                 patternTransform=\"translate(" ++ numStr offsetX
    ++ "," ++ numStr offsetY ++ ")\">\n          <image href=\"" ++ href
    ++ "\" width=\"" ++ toString size ++ "\" height=\"" ++ toString size
    ++ "\" preserveAspectRatio=\"xMidYMid\"/>\n        </pattern>\n      "

/-- generatePatternDef of ExportControls.tsx: the switch over the pattern id
producing one pattern tile definition, sized from the image dimensions and
translated by the per-segment offset. -/
def generatePatternDef (patternId : String) (offset : Offset) (dims : Dims) : String :=
  let offsetX := offset.x
  let offsetY := offset.y
  let patternSize := imagePatternSize dims
  if patternId = "dithered_marble_1" then
    imageTileDef patternId "/assets/dithered_marble_1.png" patternSize offsetX offsetY
  else if patternId = "dithered_marble_2" then
    imageTileDef patternId "/assets/dithered_marble_2.png" patternSize offsetX offsetY
  else if patternId = "dithered_nest" then
    imageTileDef patternId "/assets/dithered_nest.png" patternSize offsetX offsetY
  else if patternId = "dots" then
    let dotSize := dotPatternSize dims
    "\n        <pattern id=\"" ++ patternId
      ++ "\" patternUnits=\"userSpaceOnUse\" width=\"" ++ numStr dotSize
      ++ "\" height=\"" ++ numStr dotSize
      ++ "\" \n                 patternTransform=\"translate(" ++ numStr offsetX
      ++ "," ++ numStr offsetY ++ ")\">\n          <circle cx=\"" ++ numStr (dotSize / 2)
      ++ "\" cy=\"" ++ numStr (dotSize / 2) ++ "\" r=\"" ++ numStr (dotSize / 8)
      ++ "\" fill=\"currentColor\" opacity=\"0.8\"/>\n        </pattern>\n      "
  else if patternId = "solid" then
    "\n        <pattern id=\"" ++ patternId
      ++ "\" patternUnits=\"userSpaceOnUse\" width=\"1\" height=\"1\" \n                 patternTransform=\"translate("
      ++ numStr offsetX ++ "," ++ numStr offsetY
      ++ ")\">\n          <rect width=\"1\" height=\"1\" fill=\"currentColor\"/>\n        </pattern>\n      "
  else
    let defaultSize := dotPatternSize dims
    "\n        <pattern id=\"" ++ patternId
      ++ "\" patternUnits=\"userSpaceOnUse\" width=\"" ++ numStr defaultSize
      ++ "\" height=\"" ++ numStr defaultSize
      ++ "\" \n                 patternTransform=\"translate(" ++ numStr offsetX
      ++ "," ++ numStr offsetY ++ ")\">\n          <rect width=\"" ++ numStr defaultSize
      ++ "\" height=\"" ++ numStr defaultSize
      ++ "\" fill=\"currentColor\" opacity=\"0.3\"/>\n        </pattern>\n      "

/-- Pattern definition block of generateSVG: one generatePatternDef call per
segment whose ditherPattern is truthy, in segment order (the current source
deliberately drops the earlier distinct-pattern Set). -/
def patternDefsList (segments : List ImageSegment) (dims : Dims) : List String :=
  (segments.filter fun s => jsTruthy s.ditherPattern).map fun s =>
    generatePatternDef (jsOrDefault s.ditherPattern "") (jsOrZero s.patternOffset) dims

/-- Resolution of a segment's path data: the stored svgPath when truthy,
otherwise the asynchronous mask decode modeled by the oracle decodeMask. -/
def resolvePathData (decodeMask : String → String) (s : ImageSegment) : String :=
  match s.svgPath with
  | none => decodeMask s.mask
  | some p => if p.isEmpty then decodeMask s.mask else p

/-- Path group emitted by generateSVG for one included segment: a color
context group holding one path element filled by the referenced pattern. -/
def segmentGroup (decodeMask : String → String) (s : ImageSegment) : String :=
  let patternId := jsOrDefault s.ditherPattern "solid"
  let color := getSegmentColor s.id
  let pathData := resolvePathData decodeMask s
  "\n          <g color=\"" ++ color ++ "\">\n            <path \n              d=\""
    ++ pathData ++ "\" \n              "
    ++ ("fill=\"url(#" ++ patternId ++ ")\"")
    ++ " \n              stroke=\"" ++ color
    ++ "\" \n              stroke-width=\"2\"\n              "
    ++ ("data-segment=\"" ++ s.id ++ "\"")
    ++ "\n            />\n          </g>\n        "

/-- Inclusion filter of generateSVG: in all mode (includeAll) every segment,
otherwise only segments with a truthy pattern assignment. -/
def includedSegments (segments : List ImageSegment) (includeAll : Bool) : List ImageSegment :=
  segments.filter fun s => includeAll || jsTruthy s.ditherPattern

/-- Path groups of generateSVG, one per included segment in order. -/
def segmentGroups (decodeMask : String → String) (segments : List ImageSegment)
    (includeAll : Bool) : List String :=
  (includedSegments segments includeAll).map (segmentGroup decodeMask)

/-- Document template of generateSVG: sized root element, defs block, opaque
white background rectangle, then the segment groups. -/
def svgDoc (w h : ℚ) (defs paths : String) : String :=
  "\n      "
    ++ ("<svg width=\"" ++ numStr w ++ "\" height=\"" ++ numStr h ++ "\"")
    ++ " viewBox=\"0 0 " ++ numStr w ++ " " ++ numStr h
    ++ "\" xmlns=\"http://www.w3.org/2000/svg\">\n        <defs>\n          "
    ++ defs ++ "\n        </defs>\n        "
    ++ "<rect width=\"100%\" height=\"100%\" fill=\"white\"/>"
    ++ "\n        " ++ paths ++ "\n      </svg>\n    "

/-- generateSVG of ExportControls.tsx (current version): pure function of
the segment list, the inclusion mode and the image dimensions, with the
asynchronous mask decode abstracted by the oracle decodeMask. -/
def generateSVG (decodeMask : String → String) (segments : List ImageSegment)
    (includeAll : Bool) (dims : Dims) : String :=
  svgDoc dims.width dims.height
    (joinSep "\n" (patternDefsList segments dims))
    (joinSep "\n" (segmentGroups decodeMask segments includeAll))

/-- exportWithPatternsOnly of ExportControls.tsx: the document produced by
the patterns-only export, which pre-filters to pattern-bearing segments and
calls generateSVG with includeAll disabled. -/
def exportWithPatternsOnlySVG (decodeMask : String → String)
    (segments : List ImageSegment) (dims : Dims) : String :=
  generateSVG decodeMask (segments.filter fun s => jsTruthy s.ditherPattern) false dims

/-! ## Polygon capture (src/src/components/SegmentationCanvas.tsx) -/

/-- generateSVGPathFromPolygon of SegmentationCanvas.tsx: the move-to
command emitted for the point at index 0. -/
def pointMCmd (p : ClickPoint) : String :=
  "M" ++ numStr p.x ++ "," ++ numStr p.y

/-- generateSVGPathFromPolygon of SegmentationCanvas.tsx: the line-to
command appended for every point of index at least 1. -/
def pointLCmd (p : ClickPoint) : String :=
  " L" ++ numStr p.x ++ "," ++ numStr p.y

/-- generateSVGPathFromPolygon of SegmentationCanvas.tsx: fewer than 3
points yield the degenerate path; otherwise the forEach loop appends the
move-to command at index 0 and a line-to command per later point, and the
close-path command Z is appended last. -/
def generateSVGPathFromPolygon (points : List ClickPoint) : String :=
  if points.length < 3 then "M0,0 Z"
  else
    ((points.enum.map fun ip => if ip.1 = 0 then pointMCmd ip.2 else pointLCmd ip.2).foldl
      (fun acc cmd => acc ++ cmd) "") ++ " Z"

/-- generateMaskFromPolygon of SegmentationCanvas.tsx rasterizes the closed
polygon into an opaque fill on an offscreen canvas and serializes it as a
PNG data URL; the canvas rasterization itself is not expressible, so the
data URL is modeled as a canonical textual encoding of the defining point
list (the rasterization is deterministic in exactly these points). -/
def generateMaskFromPolygon (points : List ClickPoint) : String :=
  "mask:" ++ toString (points.map fun p => (p.x, p.y))

/-- JavaScript expression s.charAt(0).toUpperCase() + s.slice(1) used for
the segment display name. -/
def capitalizeJs (s : String) : String :=
  match s.data with
  | [] => ""
  | c :: cs => String.mk (c.toUpper :: cs)

/-- Segment record constructed by generateSegmentFromPolygon: mask and SVG
path are both generated from the same ordered point list. -/
def polygonSegment (t : String) (points : List ClickPoint) : ImageSegment :=
  { id := t
    name := capitalizeJs t
    mask := generateMaskFromPolygon points
    svgPath := some (generateSVGPathFromPolygon points) }

/-- Interaction state of the capture component: the selected segment type
(currentSegment), the accumulated anchor points, and the completion flag. -/
structure CaptureState where
  currentSegment : Option String
  anchorPoints : List ClickPoint
  isComplete : Bool
deriving DecidableEq, Repr

/-- Result of one interaction event: the successor state plus the list of
segment-completion callback invocations it performed (empty or singleton). -/
structure StepResult where
  state : CaptureState
  emitted : List ImageSegment
deriving DecidableEq, Repr

/-- generateSegmentFromPolygon of SegmentationCanvas.tsx: a no-op unless a
segment type is selected and at least 3 anchor points exist; on success it
invokes the completion callback once with the polygon segment and resets
the anchor points and completion flag. -/
def generateSegmentFromPolygon (st : CaptureState) : StepResult :=
  match st.currentSegment with
  | none => ⟨st, []⟩
  | some t =>
    if st.anchorPoints.length < 3 then ⟨st, []⟩
    else ⟨{ st with anchorPoints := [], isComplete := false }, [polygonSegment t st.anchorPoints]⟩

/-- Squared distance between the click coordinate and an anchor point. The
source compares Math.sqrt of this value with 15; over the exact rationals
that comparison is equivalent to comparing the square with 225. -/
def dist2 (x y : ℚ) (p : ClickPoint) : ℚ :=
  (x - p.x) ^ 2 + (y - p.y) ^ 2

/-- Close-polygon test of handleCanvasClick: at least 3 points exist and
the click lands within 15 canvas pixels of the first recorded point. -/
def isCloseToFirst (points : List ClickPoint) (x y : ℚ) : Bool :=
  match points with
  | [] => false
  | first :: _ => decide (3 ≤ points.length) && decide (dist2 x y first < 225)

/-- Linear ratio mapping of handleCanvasClick from on-screen coordinates to
the canvas's native pixel grid: (client - edge) / extent * canvasExtent. -/
def toCanvasCoord (client edge extent canvasExtent : ℚ) : ℚ :=
  (client - edge) / extent * canvasExtent

/-- handleCanvasClick of SegmentationCanvas.tsx, taking the already mapped
canvas-space click coordinate: ignored unless capturing; a click near the
first point with at least 3 points closes the polygon, any other click
appends an include-type anchor point. -/
def handleCanvasClick (st : CaptureState) (x y : ℚ) : StepResult :=
  if st.currentSegment = none ∨ st.isComplete = true then ⟨st, []⟩
  else if isCloseToFirst st.anchorPoints x y then
    generateSegmentFromPolygon { st with isComplete := true }
  else ⟨{ st with anchorPoints := st.anchorPoints ++ [⟨x, y, ClickKind.includePt⟩] }, []⟩

/-- handleDoubleClick of SegmentationCanvas.tsx: a no-op unless a segment
type is selected and at least 3 anchor points exist, otherwise finalizes
the polygon without any proximity requirement. -/
def handleDoubleClick (st : CaptureState) : StepResult :=
  if st.currentSegment = none ∨ st.anchorPoints.length < 3 then ⟨st, []⟩
  else generateSegmentFromPolygon { st with isComplete := true }

/-! ## Segment collection (src/src/App.tsx) -/

/-- handleSegmentComplete of App.tsx: completing a segment drops any prior
segment with the same id and appends the new one. -/
def handleSegmentComplete (segments : List ImageSegment) (segment : ImageSegment) :
    List ImageSegment :=
  (segments.filter fun s => s.id ≠ segment.id) ++ [segment]

/-- Segment collection reached from the initial empty state by a sequence
of segment-completion events. -/
def completeAll (events : List ImageSegment) : List ImageSegment :=
  events.foldl handleSegmentComplete []

/-- Concrete sample segment with the dots pattern, used in witnesses. -/
def hairDots : ImageSegment :=
  { id := "hair", name := "Hair", mask := "m", svgPath := some "M0,0 L10,0 L0,10 Z",
    ditherPattern := some "dots" }

/-- Concrete sample segment sharing the dots pattern id with hairDots. -/
def faceDots : ImageSegment :=
  { id := "face", name := "Face", mask := "m", svgPath := some "M0,0 L9,0 L0,9 Z",
    ditherPattern := some "dots" }

/-- Concrete sample segment without a pattern assignment. -/
def facePlain : ImageSegment :=
  { id := "face", name := "Face", mask := "m", svgPath := some "M0,0 L9,0 L0,9 Z" }

/-! ## Helper lemmas -/

theorem concatAll_cons (s : String) (l : List String) :
    concatAll (s :: l) = s ++ concatAll l := rfl

theorem foldl_append_eq (l : List String) (acc : String) :
    l.foldl (fun a c => a ++ c) acc = acc ++ concatAll l := by
  induction l generalizing acc with
  | nil => simp [concatAll]
  | cons s rest ih =>
    simp only [List.foldl_cons, concatAll_cons, ih, String.append_assoc]

theorem enumFrom_succ_map_cmds (ps : List ClickPoint) (n : Nat) :
    ((ps.enumFrom (n + 1)).map fun ip =>
        if ip.1 = 0 then pointMCmd ip.2 else pointLCmd ip.2)
      = ps.map pointLCmd := by
  induction ps generalizing n with
  | nil => rfl
  | cons p rest ih =>
    simp only [List.enumFrom_cons, List.map_cons, Nat.succ_ne_zero, if_neg, ih]
    simp

/-! ## C2: structure of generateSVGPathFromPolygon -/

/-- C2: for every point list of length at least 3, generateSVGPathFromPolygon
returns the move-to command of the first point, followed by exactly one
line-to command per subsequent point in list order, followed by the closing
Z command. -/
theorem generateSVGPathFromPolygon_structure (p : ClickPoint) (ps : List ClickPoint)
    (h : 3 ≤ (p :: ps).length) :
    generateSVGPathFromPolygon (p :: ps)
      = pointMCmd p ++ concatAll (ps.map pointLCmd) ++ " Z" := by
  unfold generateSVGPathFromPolygon
  rw [if_neg (by omega)]
  have henum : (p :: ps).enum = (0, p) :: ps.enumFrom 1 := by
    simp [List.enum]
  rw [henum, List.map_cons]
  simp only [if_pos rfl]
  rw [enumFrom_succ_map_cmds ps 0, foldl_append_eq, String.empty_append, concatAll_cons]
  simp [String.append_assoc]

/-- Witness for C2 at a concrete 3-point triangle. -/
theorem generateSVGPathFromPolygon_structure_witness :
    generateSVGPathFromPolygon
        [⟨0, 0, ClickKind.includePt⟩, ⟨10, 0, ClickKind.includePt⟩, ⟨0, 10, ClickKind.includePt⟩]
      = pointMCmd ⟨0, 0, ClickKind.includePt⟩
          ++ concatAll ([(⟨10, 0, ClickKind.includePt⟩ : ClickPoint),
              ⟨0, 10, ClickKind.includePt⟩].map pointLCmd) ++ " Z" :=
  generateSVGPathFromPolygon_structure _ _ (by decide)

/-! ## C4: dot pattern tile side length -/

/-- C4: the dot pattern tile side length equals min(width, height) / 15
clamped to the interval [12, 48]; it is always within those bounds, the
generated dots tile definition uses it as the tile width and height, and on
a 4000 by 4000 target it is 48 while on a 150 by 150 target it is 12. -/
theorem dotPatternSize_clamped :
    (∀ dims : Dims,
        dotPatternSize dims = min 48 (max 12 (min dims.width dims.height / 15))
          ∧ 12 ≤ dotPatternSize dims ∧ dotPatternSize dims ≤ 48
          ∧ ∀ off : Offset,
              containsSub
                ("\" patternUnits=\"userSpaceOnUse\" width=\""
                  ++ numStr (dotPatternSize dims) ++ "\" height=\"")
                (generatePatternDef "dots" off dims))
      ∧ dotPatternSize ⟨4000, 4000⟩ = 48 ∧ dotPatternSize ⟨150, 150⟩ = 12 := by
  refine ⟨fun dims => ⟨?_, ?_, ?_, ?_⟩, ?_, ?_⟩
  · rw [dotPatternSize, max_min_distrib_left]
    norm_num
  · exact le_max_left _ _
  · exact max_le (by norm_num) (min_le_left _ _)
  · intro off
    unfold generatePatternDef
    rw [if_neg (by decide), if_neg (by decide), if_neg (by decide), if_pos rfl]
    refine ⟨"\n        <pattern id=\"" ++ "dots",
      numStr (dotPatternSize dims)
        ++ "\" \n                 patternTransform=\"translate(" ++ numStr off.x ++ ","
        ++ numStr off.y ++ ")\">\n          <circle cx=\"" ++ numStr (dotPatternSize dims / 2)
        ++ "\" cy=\"" ++ numStr (dotPatternSize dims / 2) ++ "\" r=\""
        ++ numStr (dotPatternSize dims / 8)
        ++ "\" fill=\"currentColor\" opacity=\"0.8\"/>\n        </pattern>\n      ", ?_⟩
    simp only [String.append_assoc]
  · with_unfolding_all decide
  · with_unfolding_all decide

/-! ## C7: segment collection keyed by id -/

theorem handleSegmentComplete_nodup (segs : List ImageSegment) (s : ImageSegment)
    (h : (segs.map fun t => t.id).Nodup) :
    ((handleSegmentComplete segs s).map fun t => t.id).Nodup := by
  unfold handleSegmentComplete
  rw [List.map_append, List.nodup_append]
  refine ⟨h.sublist ((List.filter_sublist segs).map _), by simp, ?_⟩
  intro a ha hb
  simp only [List.map_cons, List.map_nil, List.mem_singleton] at hb
  rcases List.mem_map.1 ha with ⟨t, ht, rfl⟩
  rcases List.mem_filter.1 ht with ⟨-, hne⟩
  exact absurd (hb : t.id = s.id) (by simpa using hne)

theorem completeAll_go_nodup (events : List ImageSegment) (acc : List ImageSegment)
    (h : (acc.map fun t => t.id).Nodup) :
    ((events.foldl handleSegmentComplete acc).map fun t => t.id).Nodup := by
  induction events generalizing acc with
  | nil => exact h
  | cons e rest ih => exact ih _ (handleSegmentComplete_nodup _ _ h)

/-- C7: after any sequence of segment-completion events the collection has
at most one segment per id, and completing a segment replaces any prior
segment with the same id by the most recent one. -/
theorem completeAll_keyed_by_id :
    ∀ events : List ImageSegment,
      ((completeAll events).map fun t => t.id).Nodup
        ∧ ∀ s : ImageSegment,
            completeAll (events ++ [s]) = handleSegmentComplete (completeAll events) s
              ∧ s ∈ completeAll (events ++ [s])
              ∧ ∀ t ∈ completeAll (events ++ [s]), t.id = s.id → t = s := by
  intro events
  refine ⟨completeAll_go_nodup events [] (by simp), fun s => ⟨?_, ?_, ?_⟩⟩
  · unfold completeAll
    rw [List.foldl_append]
    rfl
  · unfold completeAll
    rw [List.foldl_append]
    simp [handleSegmentComplete]
  · intro t ht hid
    unfold completeAll at ht
    rw [List.foldl_append] at ht
    simp only [List.foldl_cons, List.foldl_nil] at ht
    unfold handleSegmentComplete at ht
    rcases List.mem_append.1 ht with hmem | hmem
    · rcases List.mem_filter.1 hmem with ⟨-, hne⟩
      exact absurd hid (by simpa using hne)
    · simpa using hmem

/-- Witness for C7: re-segmenting the id hair keeps one entry, the latest
one; the replacement clause is instantiated at that latest segment. -/
theorem completeAll_keyed_by_id_witness :
    ((completeAll [({ id := "hair", name := "Hair", mask := "m1" } : ImageSegment),
          { id := "hair", name := "Hair", mask := "m2" }]).map fun t => t.id).Nodup
      ∧ ({ id := "hair", name := "Hair", mask := "m2" } : ImageSegment)
          ∈ completeAll [({ id := "hair", name := "Hair", mask := "m1" } : ImageSegment),
              { id := "hair", name := "Hair", mask := "m2" }]
      ∧ ({ id := "hair", name := "Hair", mask := "m2" } : ImageSegment)
          = { id := "hair", name := "Hair", mask := "m2" } := by
  have h := completeAll_keyed_by_id
    [({ id := "hair", name := "Hair", mask := "m1" } : ImageSegment),
      { id := "hair", name := "Hair", mask := "m2" }]
  have h2 := (completeAll_keyed_by_id
    [({ id := "hair", name := "Hair", mask := "m1" } : ImageSegment)]).2
    { id := "hair", name := "Hair", mask := "m2" }
  exact ⟨h.1, h2.2.1, h2.2.2 _ h2.2.1 rfl⟩

/-! ## Shared lemmas about the export generator -/

theorem includedSegments_all (segs : List ImageSegment) :
    includedSegments segs true = segs := by
  simp [includedSegments]

theorem includedSegments_patternsOnly (segs : List ImageSegment) :
    includedSegments (segs.filter fun s => jsTruthy s.ditherPattern) false
      = segs.filter fun s => jsTruthy s.ditherPattern := by
  simp [includedSegments, List.filter_filter]

theorem patternDefsList_filter_invariant (segs : List ImageSegment) (dims : Dims) :
    patternDefsList segs dims
      = patternDefsList (segs.filter fun s => jsTruthy s.ditherPattern) dims := by
  simp [patternDefsList, List.filter_filter]

theorem jsOrDefault_of_falsy (o : Option String) (d : String) (h : jsTruthy o = false) :
    jsOrDefault o d = d := by
  cases o with
  | none => rfl
  | some s =>
    simp only [jsTruthy, Bool.not_eq_false'] at h
    simp [jsOrDefault, h]

theorem resolvePathData_indep (d1 d2 : String → String) (s : ImageSegment)
    (h : jsTruthy s.svgPath = true) :
    resolvePathData d1 s = resolvePathData d2 s := by
  cases hp : s.svgPath with
  | none => rw [hp] at h; exact absurd h (by simp [jsTruthy])
  | some p =>
    rw [hp] at h
    simp only [jsTruthy, Bool.not_eq_true'] at h
    simp [resolvePathData, hp, h]

theorem segmentGroup_indep (d1 d2 : String → String) (s : ImageSegment)
    (h : jsTruthy s.svgPath = true) :
    segmentGroup d1 s = segmentGroup d2 s := by
  unfold segmentGroup
  rw [resolvePathData_indep d1 d2 s h]

theorem segmentGroup_data_attr (decode : String → String) (s : ImageSegment) :
    containsSub ("data-segment=\"" ++ s.id ++ "\"") (segmentGroup decode s) := by
  refine ⟨"\n          <g color=\"" ++ getSegmentColor s.id
      ++ "\">\n            <path \n              d=\"" ++ resolvePathData decode s
      ++ "\" \n              "
      ++ ("fill=\"url(#" ++ jsOrDefault s.ditherPattern "solid" ++ ")\"")
      ++ " \n              stroke=\"" ++ getSegmentColor s.id
      ++ "\" \n              stroke-width=\"2\"\n              ",
    "\n            />\n          </g>\n        ", ?_⟩
  unfold segmentGroup
  simp only [String.append_assoc]

/-! ## C3: inclusion by export mode -/

/-- C3: all mode includes every provided segment, emitting one path group
per segment in order, each carrying its data-segment attribute; the
patterns-only export excludes every segment whose pattern assignment is
falsy (its group never reaches the generated output). -/
theorem export_mode_inclusion :
    ∀ (decode : String → String) (segs : List ImageSegment),
      includedSegments segs true = segs
        ∧ segmentGroups decode segs true = segs.map (segmentGroup decode)
        ∧ (∀ s ∈ segs, containsSub ("data-segment=\"" ++ s.id ++ "\"") (segmentGroup decode s))
        ∧ ∀ s : ImageSegment, jsTruthy s.ditherPattern = false →
            s ∉ includedSegments (segs.filter fun t => jsTruthy t.ditherPattern) false := by
  intro decode segs
  refine ⟨includedSegments_all segs, ?_, fun s _ => segmentGroup_data_attr decode s, ?_⟩
  · unfold segmentGroups
    rw [includedSegments_all]
  · intro s hfalse hmem
    rw [includedSegments_patternsOnly] at hmem
    rcases List.mem_filter.1 hmem with ⟨-, htrue⟩
    rw [hfalse] at htrue
    exact absurd htrue (by simp)

/-- Witness for C3 with a patterned hair segment and a pattern-less face
segment: the face segment is excluded from the patterns-only inclusion. -/
theorem export_mode_inclusion_witness :
    containsSub ("data-segment=\"" ++ hairDots.id ++ "\"") (segmentGroup (fun _ => "") hairDots)
      ∧ facePlain ∉ includedSegments
          (([hairDots, facePlain] : List ImageSegment).filter
            fun t => jsTruthy t.ditherPattern) false := by
  have h := export_mode_inclusion (fun _ => "") [hairDots, facePlain]
  exact ⟨h.2.2.1 _ (by simp), h.2.2.2 _ (by decide)⟩

/-! ## C8: empty export is a minimal document -/

/-- C8: exporting an empty segment list at any positive dimensions yields
the minimal document: the template with empty defs and empty paths, no
segment groups and no pattern definitions, still carrying the sized root
element and the opaque white background rectangle. -/
theorem generateSVG_empty_minimal :
    ∀ (decode : String → String) (w h : ℚ), 0 < w → 0 < h →
      generateSVG decode [] true ⟨w, h⟩ = svgDoc w h "" ""
        ∧ segmentGroups decode [] true = []
        ∧ patternDefsList [] ⟨w, h⟩ = []
        ∧ containsSub "<rect width=\"100%\" height=\"100%\" fill=\"white\"/>"
            (generateSVG decode [] true ⟨w, h⟩)
        ∧ containsSub ("<svg width=\"" ++ numStr w ++ "\" height=\"" ++ numStr h ++ "\"")
            (generateSVG decode [] true ⟨w, h⟩) := by
  intro decode w h _ _
  have hdoc : generateSVG decode [] true ⟨w, h⟩ = svgDoc w h "" "" := rfl
  refine ⟨hdoc, rfl, rfl, ?_, ?_⟩
  · rw [hdoc]
    refine ⟨"\n      "
        ++ ("<svg width=\"" ++ numStr w ++ "\" height=\"" ++ numStr h ++ "\"")
        ++ " viewBox=\"0 0 " ++ numStr w ++ " " ++ numStr h
        ++ "\" xmlns=\"http://www.w3.org/2000/svg\">\n        <defs>\n          "
        ++ "" ++ "\n        </defs>\n        ",
      "\n        " ++ "" ++ "\n      </svg>\n    ", ?_⟩
    unfold svgDoc
    simp only [String.append_assoc]
  · rw [hdoc]
    refine ⟨"\n      ",
      " viewBox=\"0 0 " ++ numStr w ++ " " ++ numStr h
        ++ "\" xmlns=\"http://www.w3.org/2000/svg\">\n        <defs>\n          "
        ++ "" ++ "\n        </defs>\n        "
        ++ "<rect width=\"100%\" height=\"100%\" fill=\"white\"/>"
        ++ "\n        " ++ "" ++ "\n      </svg>\n    ", ?_⟩
    unfold svgDoc
    simp only [String.append_assoc]

/-- Witness for C8 at 100 by 100. -/
theorem generateSVG_empty_minimal_witness :
    generateSVG (fun _ => "") [] true ⟨100, 100⟩ = svgDoc 100 100 "" ""
      ∧ containsSub "<rect width=\"100%\" height=\"100%\" fill=\"white\"/>"
          (generateSVG (fun _ => "") [] true ⟨100, 100⟩) := by
  have h := generateSVG_empty_minimal (fun _ => "") 100 100 (by norm_num) (by norm_num)
  exact ⟨h.1, h.2.2.2.1⟩

/-! ## C9: determinism of generateSVG -/

/-- C9: when every segment carries a truthy stored svgPath, the generated
document does not depend on the mask-decoding oracle; generateSVG is a pure
function of the segment list, the mode and the dimensions, so two runs
produce identical output text. -/
theorem generateSVG_deterministic :
    ∀ (d1 d2 : String → String) (segs : List ImageSegment) (includeAll : Bool) (dims : Dims),
      (∀ s ∈ segs, jsTruthy s.svgPath = true) →
      generateSVG d1 segs includeAll dims = generateSVG d2 segs includeAll dims := by
  intro d1 d2 segs includeAll dims h
  unfold generateSVG
  congr 1
  unfold segmentGroups
  congr 1
  apply List.map_congr_left
  intro s hs
  have hmem : s ∈ segs := (List.mem_filter.1 hs).1
  exact segmentGroup_indep d1 d2 s (h s hmem)

/-- Witness for C9: two different oracles, one stored-path segment. -/
theorem generateSVG_deterministic_witness :
    generateSVG (fun _ => "A") [hairDots, facePlain] true ⟨800, 600⟩
      = generateSVG (fun _ => "B") [hairDots, facePlain] true ⟨800, 600⟩ :=
  generateSVG_deterministic _ _ _ _ _ (by decide)

/-! ## C10: solid fallback fill and pattern-bearing defs -/

/-- C10: in any emitted path group a segment with a falsy pattern
assignment is filled through the implicit solid pattern id, while the
pattern definitions block is generated only from the pattern-bearing
segments (dropping the pattern-less segments leaves it unchanged). -/
theorem solid_fallback_fill :
    (∀ (decode : String → String) (s : ImageSegment), jsTruthy s.ditherPattern = false →
        containsSub "fill=\"url(#solid)\"" (segmentGroup decode s))
      ∧ ∀ (segs : List ImageSegment) (dims : Dims),
          patternDefsList segs dims
            = patternDefsList (segs.filter fun t => jsTruthy t.ditherPattern) dims := by
  refine ⟨?_, patternDefsList_filter_invariant⟩
  intro decode s h
  refine ⟨"\n          <g color=\"" ++ getSegmentColor s.id
      ++ "\">\n            <path \n              d=\"" ++ resolvePathData decode s
      ++ "\" \n              ",
    " \n              stroke=\"" ++ getSegmentColor s.id
      ++ "\" \n              stroke-width=\"2\"\n              "
      ++ ("data-segment=\"" ++ s.id ++ "\"")
      ++ "\n            />\n          </g>\n        ", ?_⟩
  have e : "fill=\"url(#" ++ "solid" ++ ")\"" = "fill=\"url(#solid)\"" := rfl
  unfold segmentGroup
  rw [jsOrDefault_of_falsy s.ditherPattern "solid" h, ← e]
  simp only [String.append_assoc]

/-- Witness for C10 at a concrete pattern-less segment. -/
theorem solid_fallback_fill_witness :
    containsSub "fill=\"url(#solid)\"" (segmentGroup (fun _ => "") facePlain) :=
  solid_fallback_fill.1 (fun _ => "") facePlain (by decide)

/-! ## C5: minimum-vertex guard at finalization -/

theorem isCloseToFirst_length {points : List ClickPoint} {x y : ℚ}
    (h : isCloseToFirst points x y = true) : 3 ≤ points.length := by
  cases points with
  | nil => simp [isCloseToFirst] at h
  | cons p rest =>
    simp only [isCloseToFirst, Bool.and_eq_true, decide_eq_true_eq] at h
    exact h.1

/-- C5: with fewer than 3 anchor points no click can finalize (the
completion callback is never invoked), a double click is a complete no-op
(state unchanged, nothing emitted), and a double click while capturing with
exactly 3 points invokes the completion callback exactly once. -/
theorem finalize_min_vertices :
    (∀ (st : CaptureState) (x y : ℚ), st.anchorPoints.length < 3 →
        (handleCanvasClick st x y).emitted = [])
      ∧ (∀ st : CaptureState, st.anchorPoints.length < 3 →
          handleDoubleClick st = ⟨st, []⟩)
      ∧ ∀ (st : CaptureState) (t : String), st.currentSegment = some t →
          st.anchorPoints.length = 3 → (handleDoubleClick st).emitted.length = 1 := by
  refine ⟨?_, ?_, ?_⟩
  · intro st x y hlen
    unfold handleCanvasClick
    split_ifs with h1 h2
    · rfl
    · exact absurd (isCloseToFirst_length h2) (by omega)
    · rfl
  · intro st hlen
    unfold handleDoubleClick
    rw [if_pos (Or.inr hlen)]
  · intro st t hseg hlen
    rcases st with ⟨cs, pts, ic⟩
    simp only at hseg hlen
    subst hseg
    unfold handleDoubleClick
    rw [if_neg (by simp; omega)]
    unfold generateSegmentFromPolygon
    simp only
    rw [if_neg (by simp; omega)]
    rfl

/-- Witness for C5: a 2-point capture never completes under either
gesture, and a 3-point capture completes once under a double click. -/
theorem finalize_min_vertices_witness :
    (handleCanvasClick
        ⟨some "hair", [⟨0, 0, ClickKind.includePt⟩, ⟨10, 0, ClickKind.includePt⟩], false⟩
        1 1).emitted = []
      ∧ handleDoubleClick
          ⟨some "hair", [⟨0, 0, ClickKind.includePt⟩, ⟨10, 0, ClickKind.includePt⟩], false⟩
        = ⟨⟨some "hair", [⟨0, 0, ClickKind.includePt⟩, ⟨10, 0, ClickKind.includePt⟩], false⟩, []⟩
      ∧ (handleDoubleClick
          ⟨some "hair", [⟨0, 0, ClickKind.includePt⟩, ⟨10, 0, ClickKind.includePt⟩,
            ⟨0, 10, ClickKind.includePt⟩], false⟩).emitted.length = 1 :=
  ⟨finalize_min_vertices.1 _ 1 1 (by decide),
    finalize_min_vertices.2.1 _ (by decide),
    finalize_min_vertices.2.2 _ "hair" rfl (by decide)⟩

/-! ## C6: close gesture agrees with the double-click gesture -/

/-- C6: while capturing with at least 3 points, a click within 15 canvas
pixels of the first recorded point produces exactly the same step as the
explicit double-click gesture: the same single emitted segment built from
the accumulated point list (the closing click is not appended), and the
anchor points are cleared. -/
theorem close_click_eq_double_click :
    ∀ (st : CaptureState) (x y : ℚ) (t : String) (p0 : ClickPoint) (rest : List ClickPoint),
      st.currentSegment = some t → st.isComplete = false →
      st.anchorPoints = p0 :: rest → 3 ≤ st.anchorPoints.length →
      dist2 x y p0 < 225 →
      handleCanvasClick st x y = handleDoubleClick st
        ∧ (handleCanvasClick st x y).emitted = [polygonSegment t st.anchorPoints]
        ∧ (handleCanvasClick st x y).state.anchorPoints = [] := by
  intro st x y t p0 rest hseg hc hpts hlen hclose
  rcases st with ⟨cs, pts, ic⟩
  simp only at hseg hc hpts hlen
  subst hseg hc hpts
  simp only [List.length_cons] at hlen
  have hcloseB : isCloseToFirst (p0 :: rest) x y = true := by
    simp only [isCloseToFirst, Bool.and_eq_true, decide_eq_true_eq, List.length_cons]
    exact ⟨hlen, hclose⟩
  have h1 : handleCanvasClick ⟨some t, p0 :: rest, false⟩ x y
      = generateSegmentFromPolygon ⟨some t, p0 :: rest, true⟩ := by
    unfold handleCanvasClick
    rw [if_neg (by simp), if_pos hcloseB]
  have h2 : handleDoubleClick ⟨some t, p0 :: rest, false⟩
      = generateSegmentFromPolygon ⟨some t, p0 :: rest, true⟩ := by
    unfold handleDoubleClick
    rw [if_neg (by simp; omega)]
  have h3 : generateSegmentFromPolygon ⟨some t, p0 :: rest, true⟩
      = ⟨⟨some t, [], false⟩, [polygonSegment t (p0 :: rest)]⟩ := by
    unfold generateSegmentFromPolygon
    simp only
    rw [if_neg (by simp; omega)]
  refine ⟨h1.trans h2.symm, ?_, ?_⟩
  · rw [h1, h3]
  · rw [h1, h3]

/-- Witness for C6 at a concrete triangle closed by a click near its first
vertex. -/
theorem close_click_eq_double_click_witness :
    handleCanvasClick
        ⟨some "hair", [⟨0, 0, ClickKind.includePt⟩, ⟨10, 0, ClickKind.includePt⟩,
          ⟨0, 10, ClickKind.includePt⟩], false⟩ 1 1
      = handleDoubleClick
          ⟨some "hair", [⟨0, 0, ClickKind.includePt⟩, ⟨10, 0, ClickKind.includePt⟩,
            ⟨0, 10, ClickKind.includePt⟩], false⟩
      ∧ (handleCanvasClick
          ⟨some "hair", [⟨0, 0, ClickKind.includePt⟩, ⟨10, 0, ClickKind.includePt⟩,
            ⟨0, 10, ClickKind.includePt⟩], false⟩ 1 1).emitted
        = [polygonSegment "hair" [⟨0, 0, ClickKind.includePt⟩, ⟨10, 0, ClickKind.includePt⟩,
            ⟨0, 10, ClickKind.includePt⟩]] := by
  have h := close_click_eq_double_click
    ⟨some "hair", [⟨0, 0, ClickKind.includePt⟩, ⟨10, 0, ClickKind.includePt⟩,
      ⟨0, 10, ClickKind.includePt⟩], false⟩ 1 1 "hair" ⟨0, 0, ClickKind.includePt⟩
    [⟨10, 0, ClickKind.includePt⟩, ⟨0, 10, ClickKind.includePt⟩]
    rfl rfl rfl (by decide) (by with_unfolding_all decide)
  exact ⟨h.1, h.2.1⟩

/-! ## C1: pattern tile definitions are emitted per segment, not per
distinct pattern id -/

set_option maxRecDepth 400000 in
/-- C1 counterexample: two included segments sharing the single distinct
pattern id dots yield two pattern tile definitions for that id in the
generated document, not one. -/
theorem duplicate_pattern_defs_counterexample :
    countSubstr "<pattern id=\"dots\""
        (generateSVG (fun _ => "M0,0 Z") [hairDots, faceDots] true ⟨800, 600⟩) = 2
      ∧ (([hairDots, faceDots] : List ImageSegment).filter
          fun s => jsTruthy s.ditherPattern).map (fun s => jsOrDefault s.ditherPattern "")
        = ["dots", "dots"] := by
  constructor
  · with_unfolding_all decide
  · with_unfolding_all decide

/-- C1 amended: the current generator emits exactly one pattern tile
definition per included segment whose pattern assignment is truthy, in
segment order; segments sharing one pattern id therefore contribute one
definition each, and pattern-less segments contribute none. -/
theorem patternDefs_per_segment :
    ∀ (segs : List ImageSegment) (dims : Dims),
      (patternDefsList segs dims).length
          = (segs.filter fun s => jsTruthy s.ditherPattern).length
        ∧ patternDefsList segs dims
            = patternDefsList (segs.filter fun s => jsTruthy s.ditherPattern) dims
        ∧ ∀ s : ImageSegment, jsTruthy s.ditherPattern = true →
            patternDefsList (s :: segs) dims
              = generatePatternDef (jsOrDefault s.ditherPattern "") (jsOrZero s.patternOffset)
                    dims
                  :: patternDefsList segs dims := by
  intro segs dims
  refine ⟨by simp [patternDefsList], patternDefsList_filter_invariant segs dims, ?_⟩
  intro s htrue
  simp [patternDefsList, htrue]

/-- Witness for C1 amended: one pattern-bearing and one pattern-less
segment yield exactly one tile definition, led by the pattern-bearing
head. -/
theorem patternDefs_per_segment_witness :
    (patternDefsList [facePlain] ⟨800, 600⟩).length
        = (([facePlain] : List ImageSegment).filter fun s => jsTruthy s.ditherPattern).length
      ∧ patternDefsList (hairDots :: [facePlain]) ⟨800, 600⟩
          = generatePatternDef (jsOrDefault hairDots.ditherPattern "")
                (jsOrZero hairDots.patternOffset) ⟨800, 600⟩
              :: patternDefsList [facePlain] ⟨800, 600⟩ := by
  have h := patternDefs_per_segment [facePlain] ⟨800, 600⟩
  exact ⟨h.1, h.2.2 hairDots (by decide)⟩

end DitherCreator
